import Mathlib

/-!
Verification of the RunPod Terraform provider's core logic
(`internal/provider/client.go`, `internal/provider/pod_resource.go`),
shallowly embedded in Lean 4.

The embedding keeps the Go package's names wherever Lean allows.
Machine integers are modelled as `Int`/`Nat`; fallible code returns
`Except`/`Option`; the HTTP layer is modelled by the stream of responses
an exchange would observe, attempt by attempt.
-/

namespace RunPod

/-! ## Transport client: `doRequest` (client.go, lines 50-115) -/

/-- One error entry of the GraphQL response envelope (client.go `graphQLError`). -/
structure GraphQLError where
  message : String
deriving Repr, DecidableEq

/-- The GraphQL response envelope (client.go `graphQLResponse`);
`dataRaw` stands for the raw JSON `data` payload. -/
structure GraphQLResponse where
  dataRaw : String
  errors : List GraphQLError
deriving Repr, DecidableEq

/-- An HTTP response as `doRequest` sees it: status code, raw body, and the
result of `json.Unmarshal` on the body (`none` when the body does not parse
as a response envelope). -/
structure HttpResponse where
  status : Nat
  body : String
  parsed : Option GraphQLResponse
deriving Repr, DecidableEq

/-- What one attempt of the exchange yields: a transport-layer failure
(`http.Client.Do` error) or an HTTP response. -/
inductive AttemptOutcome where
  | transportErr (msg : String)
  | response (r : HttpResponse)
deriving Repr, DecidableEq

/-- The possible results of `doRequest`, by the `return` sites of the Go code. -/
inductive DoRequestResult where
  | ok (payload : String)
  | transportError (msg : String)
  | httpError (status : Nat) (body : String)
  | unmarshalError
  | gqlError (msg : String)
  | maxRetriesExceeded
deriving Repr, DecidableEq

/-- client.go line 65: `maxRetries := 5`. -/
def maxRetries : Nat := 5

/-- client.go line 66: `baseDelay := 2 * time.Second`, in abstract time units. -/
def baseDelay : Nat := 2

/-- The retry loop of `doRequest` (client.go lines 68-112), recursing on the
remaining loop iterations.  Returns the result, the list of sleeps performed
(client.go lines 92-93, `baseDelay * 2^attempt`), and the number of attempts
made.  The `rem = 0` case is the loop falling off its bound
(client.go line 114, `return nil, fmt.Errorf("max retries exceeded")`). -/
def doRequestLoop (responses : Nat → AttemptOutcome) :
    Nat → Nat → DoRequestResult × List Nat × Nat
  | _, 0 => (.maxRetriesExceeded, [], 0)
  | attempt, rem + 1 =>
    match responses attempt with
    | .transportErr m => (.transportError ("failed to execute request: " ++ m), [], 1)
    | .response r =>
      if (r.status = 429 ∨ r.status = 503) ∧ attempt < maxRetries - 1 then
        let rest := doRequestLoop responses (attempt + 1) rem
        (rest.1, (baseDelay * 2 ^ attempt) :: rest.2.1, rest.2.2 + 1)
      else if 400 ≤ r.status then
        (.httpError r.status r.body, [], 1)
      else
        match r.parsed with
        | none => (.unmarshalError, [], 1)
        | some g =>
          match g.errors with
          | [] => (.ok g.dataRaw, [], 1)
          | e :: _ => (.gqlError ("GraphQL error: " ++ e.message), [], 1)

/-- The function `doRequest` on a given stream of attempt outcomes (client.go lines 50-115):
five loop iterations starting at attempt 0. -/
def doRequest (responses : Nat → AttemptOutcome) : DoRequestResult × List Nat × Nat :=
  doRequestLoop responses 0 maxRetries

/-- A rate-limited response with the given body. -/
def rateLimited (body : String) : AttemptOutcome :=
  .response ⟨429, body, none⟩

/-! ## Environment variables (client.go, lines 144-176) -/

/-- client.go `EnvVar`. -/
structure EnvVar where
  key : String
  value : String
deriving Repr, DecidableEq

/-- Go's `strings.SplitN(s, "=", 2)` on the character list: the part before the
first `'='` and, when a `'='` occurs, the remainder after it. -/
def splitEq : List Char → List Char × Option (List Char)
  | [] => ([], none)
  | c :: cs =>
    if c = '=' then ([], some cs)
    else
      let r := splitEq cs
      (c :: r.1, r.2)

/-- Decode one wire string `"KEY=VALUE"` into an `EnvVar`
(client.go lines 158-165): split at the first `'='`; with no `'='`,
the whole string is the key and the value is empty. -/
def envVarOfWire (s : String) : EnvVar :=
  match splitEq s.data with
  | (k, some v) => ⟨String.mk k, String.mk v⟩
  | (k, none) => ⟨String.mk k, ""⟩

/-- The forms the wire JSON for an `env` field can take, as
`EnvVars.UnmarshalJSON` distinguishes them (client.go lines 153-176). -/
inductive EnvVarsWire where
  | strings (xs : List String)
  | records (xs : List EnvVar)
  | malformed
deriving Repr, DecidableEq

/-- client.go `EnvVars.UnmarshalJSON`: a string array decodes elementwise via
`envVarOfWire` and never fails; otherwise fall back to decoding as a record
array; anything else is an error. -/
def EnvVars.unmarshal : EnvVarsWire → Except String (List EnvVar)
  | .strings xs => .ok (xs.map envVarOfWire)
  | .records xs => .ok xs
  | .malformed => .error "failed to unmarshal env"

/-! ## `strings.Contains` (used by Read/Delete not-found classification) -/

/-- Whether `hay` starts with `needle` (on character lists). -/
def listStartsWith : List Char → List Char → Bool
  | _, [] => true
  | [], _ :: _ => false
  | c :: cs, d :: ds => c = d && listStartsWith cs ds

/-- Go's `strings.Contains` on character lists: some suffix of `hay` starts with
`needle`. -/
def listContains : List Char → List Char → Bool
  | [], needle => needle.isEmpty
  | c :: cs, needle => listStartsWith (c :: cs) needle || listContains cs needle

/-- Go's `strings.Contains(s, sub)`. -/
def goContains (s sub : String) : Bool :=
  listContains s.data sub.data

theorem listStartsWith_iff (h n : List Char) :
    listStartsWith h n = true ↔ ∃ t, h = n ++ t := by
  induction n generalizing h with
  | nil =>
    simp [listStartsWith]
  | cons d ds ih =>
    cases h with
    | nil =>
      simp [listStartsWith]
    | cons c cs =>
      simp only [listStartsWith, Bool.and_eq_true, decide_eq_true_eq, ih]
      constructor
      · rintro ⟨rfl, t, rfl⟩
        exact ⟨t, rfl⟩
      · rintro ⟨t, ht⟩
        injection ht with h1 h2
        exact ⟨h1, t, h2⟩

theorem listContains_iff (h n : List Char) :
    listContains h n = true ↔ ∃ p t, h = p ++ n ++ t := by
  induction h with
  | nil =>
    simp only [listContains, List.isEmpty_iff]
    constructor
    · rintro rfl
      exact ⟨[], [], rfl⟩
    · rintro ⟨p, t, ht⟩
      rcases List.append_eq_nil.mp ht.symm with ⟨h1, h2⟩
      exact (List.append_eq_nil.mp h1).2
  | cons c cs ih =>
    simp only [listContains, Bool.or_eq_true, listStartsWith_iff, ih]
    constructor
    · rintro (⟨t, ht⟩ | ⟨p, t, ht⟩)
      · exact ⟨[], t, by simpa using ht⟩
      · exact ⟨c :: p, t, by simp [ht]⟩
    · rintro ⟨p, t, ht⟩
      cases p with
      | nil =>
        left
        exact ⟨t, by simpa using ht⟩
      | cons q qs =>
        right
        injection ht with h1 h2
        exact ⟨qs, t, h2⟩

/-- A string containing `"Pod not found"` contains `"not found"`. -/
theorem contains_podNotFound_contains_notFound (s : String) :
    listContains s.data ("Pod not found".data) = true →
    listContains s.data ("not found".data) = true := by
  intro hc
  rcases (listContains_iff _ _).mp hc with ⟨p, t, ht⟩
  apply (listContains_iff _ _).mpr
  refine ⟨p ++ "Pod ".data, t, ?_⟩
  have hdecomp : ("Pod not found".data : List Char) = "Pod ".data ++ "not found".data := by
    decide
  rw [ht, hdecomp]
  simp

/-! ## Pod domain objects (client.go, lines 124-193) -/

/-- client.go `Port` (runtime port info). -/
structure Port where
  ip : String
  isIpPublic : Bool
  privatePort : Int
  publicPort : Int
  type : String
deriving Repr, DecidableEq

/-- client.go `Runtime`. -/
structure Runtime where
  uptimeInSeconds : Int
  ports : List Port
deriving Repr, DecidableEq

/-- client.go `Machine`.  Besides `podHostId`, the `Read` reconciliation in
pod_resource.go (line 372) reads `pod.Machine.GpuTypeID`, so the struct
carries that field as well. -/
structure Machine where
  podHostId : String
  gpuTypeId : String
deriving Repr, DecidableEq

/-- client.go `Pod`: the remote pod object as decoded from the API. -/
structure Pod where
  id : String
  name : String
  imageName : String
  gpuTypeId : String
  gpuCount : Int
  volumeInGb : Int
  containerDiskInGb : Int
  desiredStatus : String
  cloudType : String
  ports : String
  volumeMountPath : String
  dockerArgs : String
  env : List EnvVar
  machineId : String
  machine : Option Machine
  runtime : Option Runtime
deriving Repr, DecidableEq

/-! ## Terraform framework value types

`types.String` / `types.Int64` / `types.Bool` / `types.Map` are three-state:
null, unknown, or a known value.  `ValueString`/`ValueInt64`/`ValueBool`
return the zero value on null or unknown. -/

inductive TfString where
  | null
  | unknown
  | strVal (s : String)
deriving Repr, DecidableEq

/-- Framework `types.String.ValueString()`: the value, or `""` when null or unknown. -/
def TfString.valueString : TfString → String
  | .strVal s => s
  | _ => ""

inductive TfInt where
  | null
  | unknown
  | intVal (n : Int)
deriving Repr, DecidableEq

/-- Framework `types.Int64.ValueInt64()`: the value, or `0` when null or unknown. -/
def TfInt.valueInt : TfInt → Int
  | .intVal n => n
  | _ => 0

inductive TfBool where
  | null
  | unknown
  | boolVal (b : Bool)
deriving Repr, DecidableEq

/-- Framework `types.Bool.ValueBool()`: the value, or `false` when null or unknown. -/
def TfBool.valueBool : TfBool → Bool
  | .boolVal b => b
  | _ => false

inductive TfMap where
  | null
  | unknown
  | mapVal (m : List (String × String))
deriving Repr, DecidableEq

/-- The element list of a `types.Map` of strings (empty when null/unknown). -/
def TfMap.elements : TfMap → List (String × String)
  | .mapVal m => m
  | _ => []

/-- pod_resource.go `PodResourceModel`: the Terraform state of one pod. -/
structure PodResourceModel where
  id : TfString
  name : TfString
  imageName : TfString
  gpuTypeId : TfString
  gpuCount : TfInt
  volumeInGb : TfInt
  containerDiskInGb : TfInt
  cloudType : TfString
  ports : TfString
  volumeMountPath : TfString
  dockerArgs : TfString
  env : TfMap
  minVcpuCount : TfInt
  minMemoryInGb : TfInt
  networkVolumeId : TfString
  templateId : TfString
  dataCenterId : TfString
  supportPublicIp : TfBool
  startSsh : TfBool
  machineId : TfString
  podHostId : TfString
deriving Repr, DecidableEq

/-! ## Read reconciliation (pod_resource.go, lines 368-411)

The Go code is a sequence of conditional assignments, each targeting a
distinct field of `data`; the `cloud_type` default check at the end reads a
field no earlier statement writes.  The record below gives each field's
final value, statement by statement. -/

/-- The state update `Read` performs on a successful fetch
(pod_resource.go lines 368-411). -/
def readReconcile (d : PodResourceModel) (pod : Pod) : PodResourceModel where
  id := d.id
  name := .strVal pod.name
  imageName := .strVal pod.imageName
  gpuTypeId :=
    match pod.machine with
    | some m => if m.gpuTypeId ≠ "" then .strVal m.gpuTypeId else d.gpuTypeId
    | none => d.gpuTypeId
  gpuCount := .intVal pod.gpuCount
  volumeInGb := .intVal pod.volumeInGb
  containerDiskInGb := .intVal pod.containerDiskInGb
  cloudType :=
    if d.cloudType = .null ∨ d.cloudType = .unknown then .strVal "ALL" else d.cloudType
  ports := if pod.ports ≠ "" then .strVal pod.ports else d.ports
  volumeMountPath :=
    if pod.volumeMountPath ≠ "" then .strVal pod.volumeMountPath else d.volumeMountPath
  dockerArgs := if pod.dockerArgs ≠ "" then .strVal pod.dockerArgs else d.dockerArgs
  env := d.env
  minVcpuCount := d.minVcpuCount
  minMemoryInGb := d.minMemoryInGb
  networkVolumeId := d.networkVolumeId
  templateId := d.templateId
  dataCenterId := d.dataCenterId
  supportPublicIp := d.supportPublicIp
  startSsh := d.startSsh
  machineId := if pod.machineId ≠ "" then .strVal pod.machineId else d.machineId
  podHostId :=
    match pod.machine with
    | some m => if m.podHostId ≠ "" then .strVal m.podHostId else d.podHostId
    | none => d.podHostId

/-- The externally visible outcome of `Read` (pod_resource.go lines 344-414). -/
inductive ReadOutcome where
  | removedFromState
  | diag (msg : String)
  | newState (m : PodResourceModel)
deriving Repr, DecidableEq

/-- The resource `Read` given the result of `GetPod` (pod_resource.go lines 354-366, 413):
a fetch error containing `"not found"` or `"Pod not found"` removes the
resource from state; any other error surfaces a diagnostic; a fetched pod is
reconciled into the prior state. -/
def podRead (d : PodResourceModel) (fetch : Except String Pod) : ReadOutcome :=
  match fetch with
  | .error e =>
    if goContains e "not found" || goContains e "Pod not found" then
      .removedFromState
    else
      .diag ("Unable to read pod: " ++ e)
  | .ok pod => .newState (readReconcile d pod)

/-- The resource `Delete` given the result of `TerminatePod` (pod_resource.go lines
453-462): a terminate error containing `"not found"` is ignored; any other
error surfaces a diagnostic; the returned value is the diagnostic, if any. -/
def podDelete (terminate : Option String) : Option String :=
  match terminate with
  | some e =>
    if goContains e "not found" then none
    else some ("Unable to terminate pod: " ++ e)
  | none => none

/-! ## GraphQL request values -/

/-- A value placed in the `variables` object of a request
(client.go `graphQLRequest.Variables`). -/
inductive GqlVal where
  | vstr (s : String)
  | vint (n : Int)
  | vbool (b : Bool)
  | venv (l : List EnvVar)
deriving Repr, DecidableEq

/-- A request envelope: document text plus variables object
(client.go `graphQLRequest`). -/
structure GqlRequest where
  query : String
  vars : List (String × GqlVal)
deriving Repr, DecidableEq

/-! ## `GetGpuType` (client.go, lines 500-531) -/

/-- The document text `GetGpuType` builds (client.go lines 502-510): the id
is concatenated between these two literal pieces. -/
def getGpuTypeQueryPre : String :=
  "query GpuTypes \x7b\n\t\tgpuTypes(input: \x7bid: \""

def getGpuTypeQueryPost : String :=
  "\"\x7d) \x7b\n\t\t\tid\n\t\t\tdisplayName\n\t\t\tmemoryInGb\n\t\t\tsecureCloud\n\t\t\tcommunityCloud\n\t\t\x7d\n\t\x7d"

/-- client.go line 503: `gpuTypes(input: {id: "` + id + `"})` — the id is
spliced into the document text. -/
def getGpuTypeQuery (id : String) : String :=
  getGpuTypeQueryPre ++ id ++ getGpuTypeQueryPost

/-- The request `GetGpuType` sends (client.go lines 502-514): the document
with the id spliced in, and an empty variables object. -/
def getGpuTypeRequest (id : String) : GqlRequest :=
  ⟨getGpuTypeQuery id, []⟩

/-! ## `CreatePod` (client.go, lines 195-319) -/

/-- client.go `PodInput`. -/
structure PodInput where
  name : String
  imageName : String
  gpuTypeId : String
  gpuTypeIds : List String
  gpuCount : Int
  volumeInGb : Int
  containerDiskInGb : Int
  cloudType : String
  ports : String
  volumeMountPath : String
  dockerArgs : String
  env : List EnvVar
  minVcpuCount : Int
  minMemoryInGb : Int
  networkVolumeId : String
  templateId : String
  dataCenterId : String
  supportPublicIp : Bool
  startSsh : Bool
deriving Repr, DecidableEq

/-- The `input` map `CreatePod` builds (client.go lines 240-296).  The Go code
inserts into a map; since every key is distinct, the sequence of conditional
inserts is recorded here as a concatenation of (possibly empty) segments in
program order. -/
def buildCreateInputMap (input : PodInput) : List (String × GqlVal) :=
  [("name", .vstr input.name),
   ("imageName", .vstr input.imageName),
   ("gpuCount", .vint input.gpuCount),
   ("volumeInGb", .vint input.volumeInGb),
   ("containerDiskInGb", .vint input.containerDiskInGb)]
  ++ (match input.gpuTypeIds with
      | g :: _ => [("gpuTypeId", .vstr g)]
      | [] =>
        if input.gpuTypeId ≠ "" then [("gpuTypeId", .vstr input.gpuTypeId)] else [])
  ++ (if input.cloudType ≠ "" then [("cloudType", .vstr input.cloudType)] else [])
  ++ (if input.ports ≠ "" then [("ports", .vstr input.ports)] else [])
  ++ (if input.volumeMountPath ≠ "" then
        [("volumeMountPath", .vstr input.volumeMountPath)] else [])
  ++ (if input.dockerArgs ≠ "" then [("dockerArgs", .vstr input.dockerArgs)] else [])
  ++ (if input.env.length > 0 then [("env", .venv input.env)] else [])
  ++ (if input.minVcpuCount > 0 then [("minVcpuCount", .vint input.minVcpuCount)] else [])
  ++ (if input.minMemoryInGb > 0 then
        [("minMemoryInGb", .vint input.minMemoryInGb)] else [])
  ++ (if input.networkVolumeId ≠ "" then
        [("networkVolumeId", .vstr input.networkVolumeId)] else [])
  ++ (if input.templateId ≠ "" then [("templateId", .vstr input.templateId)] else [])
  ++ (if input.dataCenterId ≠ "" then [("dataCenterId", .vstr input.dataCenterId)] else [])
  ++ (if input.supportPublicIp then
        [("supportPublicIp", .vbool input.supportPublicIp)] else [])
  ++ (if input.startSsh then [("startSsh", .vbool input.startSsh)] else [])

/-- The document text of the create mutation (client.go lines 220-238). -/
def createPodQuery : String :=
  "mutation PodFindAndDeployOnDemand($input: PodFindAndDeployOnDemandInput!) \x7b\n\t\tpodFindAndDeployOnDemand(input: $input) \x7b\n\t\t\tid\n\t\t\tname\n\t\t\timageName\n\t\t\tgpuCount\n\t\t\tvolumeInGb\n\t\t\tcontainerDiskInGb\n\t\t\tdesiredStatus\n\t\t\tports\n\t\t\tvolumeMountPath\n\t\t\tdockerArgs\n\t\t\tenv\n\t\t\tmachineId\n\t\t\tmachine \x7b\n\t\t\t\tpodHostId\n\t\t\t\x7d\n\t\t\x7d\n\t\x7d"

/-- The full request `CreatePod` sends: the constant mutation document plus
`{"input": inputMap}` as variables (client.go lines 298-302).  The nested
input object is kept as the ordered field list itself. -/
structure CreatePodRequest where
  query : String
  inputVars : List (String × GqlVal)
deriving Repr, DecidableEq

def createPodRequest (input : PodInput) : CreatePodRequest :=
  ⟨createPodQuery, buildCreateInputMap input⟩

/-- The `PodInput` the resource `Create` builds from the planned state
(pod_resource.go lines 267-320).  Nullable optional fields contribute their
value only when non-null; otherwise the Go zero value remains. -/
def buildPodInput (d : PodResourceModel) : PodInput where
  name := d.name.valueString
  imageName := d.imageName.valueString
  gpuTypeId := d.gpuTypeId.valueString
  gpuTypeIds := []
  gpuCount := d.gpuCount.valueInt
  volumeInGb := d.volumeInGb.valueInt
  containerDiskInGb := d.containerDiskInGb.valueInt
  cloudType := if d.cloudType = .null then "" else d.cloudType.valueString
  ports := if d.ports = .null then "" else d.ports.valueString
  volumeMountPath := if d.volumeMountPath = .null then "" else d.volumeMountPath.valueString
  dockerArgs := if d.dockerArgs = .null then "" else d.dockerArgs.valueString
  env := if d.env = .null then [] else d.env.elements.map fun kv => ⟨kv.1, kv.2⟩
  minVcpuCount := if d.minVcpuCount = .null then 0 else d.minVcpuCount.valueInt
  minMemoryInGb := if d.minMemoryInGb = .null then 0 else d.minMemoryInGb.valueInt
  networkVolumeId := if d.networkVolumeId = .null then "" else d.networkVolumeId.valueString
  templateId := if d.templateId = .null then "" else d.templateId.valueString
  dataCenterId := if d.dataCenterId = .null then "" else d.dataCenterId.valueString
  supportPublicIp := if d.supportPublicIp = .null then false else d.supportPublicIp.valueBool
  startSsh := if d.startSsh = .null then false else d.startSsh.valueBool

/-! ## Theorems about the transport client -/

/-- Loop invariant for `doRequestLoop`: starting at `attempt` with `rem`
iterations left (and `attempt + rem = maxRetries`), at most `rem` further
attempts happen, at least one when `rem > 0`, and the sleeps performed are
exactly `baseDelay * 2 ^ (attempt + k)` for `k` below `attempts - 1`. -/
theorem doRequestLoop_inv (responses : Nat → AttemptOutcome) :
    ∀ (rem attempt : Nat), attempt + rem = maxRetries →
      (doRequestLoop responses attempt rem).2.2 ≤ rem ∧
      (0 < rem → 1 ≤ (doRequestLoop responses attempt rem).2.2) ∧
      (doRequestLoop responses attempt rem).2.1 =
        (List.range ((doRequestLoop responses attempt rem).2.2 - 1)).map
          (fun k => baseDelay * 2 ^ (attempt + k)) := by
  intro rem
  induction rem with
  | zero =>
    intro attempt _
    simp [doRequestLoop]
  | succ n ih =>
    intro attempt hsum
    cases hr : responses attempt with
    | transportErr m =>
      simp [doRequestLoop, hr]
    | response r =>
      by_cases hc : (r.status = 429 ∨ r.status = 503) ∧ attempt < maxRetries - 1
      · have hn : 0 < n := by
          rcases hc with ⟨-, hlt⟩
          simp only [maxRetries] at hlt hsum
          omega
        obtain ⟨h1, h2, h3⟩ := ih (attempt + 1) (by omega)
        have hm1 := h2 hn
        simp only [doRequestLoop, hr, if_pos hc]
        refine ⟨by omega, fun _ => by omega, ?_⟩
        rw [h3]
        set m := (doRequestLoop responses (attempt + 1) n).2.2 with hmdef
        rw [show m + 1 - 1 = m by omega]
        rw [show m = (m - 1) + 1 by omega, List.range_succ_eq_map,
          List.map_cons, List.map_map]
        rw [show m - 1 + 1 - 1 = m - 1 by omega]
        refine congrArg₂ _ (by simp) ?_
        apply List.map_congr_left
        intro k _
        simp only [Function.comp_apply]
        rw [show attempt + 1 + k = attempt + Nat.succ k by omega]
      · by_cases h4 : 400 ≤ r.status
        · simp [doRequestLoop, hr, if_neg hc, if_pos h4]
        · cases hp : r.parsed with
          | none => simp [doRequestLoop, hr, if_neg hc, if_neg h4, hp]
          | some g =>
            cases he : g.errors with
            | nil => simp [doRequestLoop, hr, if_neg hc, if_neg h4, hp, he]
            | cons e es => simp [doRequestLoop, hr, if_neg hc, if_neg h4, hp, he]

/-- A response stream answering 429 twice and then succeeding with an empty
errors array. -/
def responsesTwo429ThenOk : Nat → AttemptOutcome := fun n =>
  if n < 2 then rateLimited "rate limited" else .response ⟨200, "ok-body", some ⟨"pods-payload", []⟩⟩

/-- C6: for every response stream, `doRequest` makes at most 5 attempts, its
sleeps are exactly `baseDelay * 2 ^ k` (`baseDelay = 2`) for consecutive `k`
starting at 0 — hence strictly increasing — and on the stream answering
429, 429, 200 it makes exactly 3 attempts with sleeps of 2 and 4 time units
before succeeding. -/
theorem doRequest_attempt_budget_and_backoff :
    (∀ responses : Nat → AttemptOutcome,
      (doRequest responses).2.2 ≤ 5 ∧
      (doRequest responses).2.1 =
        (List.range ((doRequest responses).2.2 - 1)).map (fun k => 2 * 2 ^ k) ∧
      List.Pairwise (· < ·) (doRequest responses).2.1) ∧
    doRequest responsesTwo429ThenOk = (.ok "pods-payload", [2, 4], 3) := by
  constructor
  · intro responses
    obtain ⟨h1, -, h3⟩ := doRequestLoop_inv responses maxRetries 0 (by simp)
    refine ⟨h1, by simpa [doRequest, baseDelay] using h3, ?_⟩
    unfold doRequest
    rw [h3]
    refine List.Pairwise.map _ (fun a b hab => ?_) (List.pairwise_lt_range _)
    simp only [Nat.zero_add, baseDelay]
    have hp : (2 : Nat) ^ a < 2 ^ b := Nat.pow_lt_pow_right (by omega) hab
    omega
  · rfl

/-- A response stream that is rate-limited on every attempt. -/
def alwaysRateLimited : Nat → AttemptOutcome := fun _ => rateLimited "too many requests"

/-- C1: with all 5 attempts rate-limited, `doRequest` does NOT return the
`max retries exceeded` error: after the 4 sleeps, the 5th attempt's 429
falls through to the `status >= 400` branch and returns the HTTP error for
status 429 — the `max retries exceeded` return is unreachable. -/
theorem doRequest_exhaustion_returns_httpError :
    doRequest alwaysRateLimited = (.httpError 429 "too many requests", [2, 4, 8, 16], 5) ∧
    (doRequest alwaysRateLimited).1 ≠ .maxRetriesExceeded := by
  exact ⟨rfl, by decide⟩

/-- C7: a first-attempt success whose envelope carries a non-empty errors
array fails with exactly the first error's message, whatever the remaining
messages and the data payload are. -/
theorem doRequest_fails_with_first_error (dataRaw body msg : String)
    (rest : List GraphQLError) :
    doRequest (fun _ => .response ⟨200, body, some ⟨dataRaw, ⟨msg⟩ :: rest⟩⟩) =
      (.gqlError ("GraphQL error: " ++ msg), [], 1) := rfl

/-! ## Theorems about `EnvVars` decoding -/

theorem splitEq_of_no_eq (l : List Char) (h : '=' ∉ l) : splitEq l = (l, none) := by
  induction l with
  | nil => rfl
  | cons c cs ih =>
    have hc : ¬(c = '=') := fun hcc => h (hcc ▸ List.mem_cons_self c cs)
    have hcs : '=' ∉ cs := fun hm => h (List.mem_cons_of_mem c hm)
    simp [splitEq, hc, ih hcs]

theorem string_mk_data (s : String) : String.mk s.data = s := rfl

/-- C8: decoding a wire string array splits each element at the first `=`;
`["A=b", "C="]` decodes to `[{A, b}, {C, ""}]`, an element with no `=`
decodes to that whole string as key with empty value, and decoding a string
array always succeeds, elementwise. -/
theorem envVars_decode_splits_at_first_eq :
    EnvVars.unmarshal (.strings ["A=b", "C="]) = .ok [⟨"A", "b"⟩, ⟨"C", ""⟩] ∧
    (∀ s : String, '=' ∉ s.data → envVarOfWire s = ⟨s, ""⟩) ∧
    (∀ xs : List String, EnvVars.unmarshal (.strings xs) = .ok (xs.map envVarOfWire)) := by
  refine ⟨rfl, fun s hs => ?_, fun xs => rfl⟩
  simp only [envVarOfWire, splitEq_of_no_eq s.data hs]

/-- Witness for the no-`=` case of `envVars_decode_splits_at_first_eq`:
`"PATH"` decodes to key `"PATH"` with empty value. -/
theorem envVars_decode_splits_at_first_eq_witness :
    envVarOfWire "PATH" = ⟨"PATH", ""⟩ :=
  envVars_decode_splits_at_first_eq.2.1 "PATH" (by decide)

/-! ## Theorems about `GetGpuType` request building -/

/-- C2 counterexample: two different filter ids produce two different request
documents — the id is spliced into the document text, not passed as a
variable. -/
theorem getGpuType_documents_differ :
    (getGpuTypeRequest "NVIDIA RTX A4000").query ≠ (getGpuTypeRequest "NVIDIA RTX A6000").query := by
  decide

/-- C2 amended: `GetGpuType` sends an empty variables object and embeds the
id as literal text in the request document, so distinct ids produce distinct
documents. -/
theorem getGpuType_embeds_id_literally :
    ∀ id : String,
      (getGpuTypeRequest id).vars = [] ∧
      (getGpuTypeRequest id).query = getGpuTypeQueryPre ++ id ++ getGpuTypeQueryPost ∧
      ∀ id2 : String, id ≠ id2 →
        (getGpuTypeRequest id).query ≠ (getGpuTypeRequest id2).query := by
  intro id
  refine ⟨rfl, rfl, fun id2 hne heq => hne ?_⟩
  have hd := congrArg String.data heq
  simp only [getGpuTypeRequest, getGpuTypeQuery, String.data_append] at hd
  have h1 := List.append_cancel_right hd
  have h2 := List.append_cancel_left h1
  cases id
  cases id2
  exact congrArg String.mk (by simpa using h2)

/-- Witness for `getGpuType_embeds_id_literally` at two concrete distinct
ids. -/
theorem getGpuType_embeds_id_literally_witness :
    (getGpuTypeRequest "NVIDIA RTX A4000").vars = [] ∧
    ("NVIDIA RTX A4000" : String) ≠ "NVIDIA GeForce RTX 3090" ∧
    (getGpuTypeRequest "NVIDIA RTX A4000").query ≠
      (getGpuTypeRequest "NVIDIA GeForce RTX 3090").query := by
  obtain ⟨h1, -, h3⟩ := getGpuType_embeds_id_literally "NVIDIA RTX A4000"
  exact ⟨h1, by decide, h3 "NVIDIA GeForce RTX 3090" (by decide)⟩

/-! ## Theorems about Read reconciliation -/

/-- One reconciliation step never touches the Write-Only fields. -/
theorem readReconcile_writeOnly_step (d : PodResourceModel) (pod : Pod) :
    (readReconcile d pod).env = d.env ∧
    (readReconcile d pod).minVcpuCount = d.minVcpuCount ∧
    (readReconcile d pod).minMemoryInGb = d.minMemoryInGb ∧
    (readReconcile d pod).networkVolumeId = d.networkVolumeId ∧
    (readReconcile d pod).templateId = d.templateId ∧
    (readReconcile d pod).dataCenterId = d.dataCenterId ∧
    (readReconcile d pod).supportPublicIp = d.supportPublicIp ∧
    (readReconcile d pod).startSsh = d.startSsh :=
  ⟨rfl, rfl, rfl, rfl, rfl, rfl, rfl, rfl⟩

/-- C3: a successful Read reconciles via `readReconcile`, and any number of
consecutive reconciliations — whatever the fetched pods hold or omit —
leaves every Write-Only field of the state (`env`, `min_vcpu_count`,
`min_memory_in_gb`, `network_volume_id`, `template_id`, `data_center_id`,
`support_public_ip`, `start_ssh`) unchanged. -/
theorem read_preserves_writeOnly_fields :
    (∀ (d : PodResourceModel) (pod : Pod),
      podRead d (.ok pod) = .newState (readReconcile d pod)) ∧
    ∀ (d : PodResourceModel) (pods : List Pod),
      (pods.foldl readReconcile d).env = d.env ∧
      (pods.foldl readReconcile d).minVcpuCount = d.minVcpuCount ∧
      (pods.foldl readReconcile d).minMemoryInGb = d.minMemoryInGb ∧
      (pods.foldl readReconcile d).networkVolumeId = d.networkVolumeId ∧
      (pods.foldl readReconcile d).templateId = d.templateId ∧
      (pods.foldl readReconcile d).dataCenterId = d.dataCenterId ∧
      (pods.foldl readReconcile d).supportPublicIp = d.supportPublicIp ∧
      (pods.foldl readReconcile d).startSsh = d.startSsh := by
  refine ⟨fun d pod => rfl, ?_⟩
  intro d pods
  induction pods generalizing d with
  | nil => exact ⟨rfl, rfl, rfl, rfl, rfl, rfl, rfl, rfl⟩
  | cons p ps ih =>
    obtain ⟨h1, h2, h3, h4, h5, h6, h7, h8⟩ := ih (readReconcile d p)
    obtain ⟨g1, g2, g3, g4, g5, g6, g7, g8⟩ := readReconcile_writeOnly_step d p
    exact ⟨h1.trans g1, h2.trans g2, h3.trans g3, h4.trans g4,
      h5.trans g5, h6.trans g6, h7.trans g7, h8.trans g8⟩

/-- Modelled from the spec: the three-tier precedence §4.3 states for a
User-Mutable-with-default field — remote value if present and non-empty,
else the prior local value if set and not unknown, else the declared
default. -/
def cloudTypeThreeTier (remote : String) (prior : TfString) (dflt : String) : String :=
  if remote ≠ "" then remote
  else
    match prior with
    | .strVal s => s
    | _ => dflt

/-- The merge `Read` actually performs on `cloud_type`: the remote value is
never consulted — the prior local value is kept when set and not unknown,
otherwise the default applies. -/
def cloudTypeTwoTier (prior : TfString) (dflt : String) : TfString :=
  match prior with
  | .strVal s => .strVal s
  | _ => .strVal dflt

/-- A prior state whose `cloud_type` is `"SECURE"`. -/
def priorSecure : PodResourceModel where
  id := .strVal "p1"
  name := .strVal "x"
  imageName := .strVal "img"
  gpuTypeId := .strVal "NVIDIA RTX A4000"
  gpuCount := .intVal 1
  volumeInGb := .intVal 20
  containerDiskInGb := .intVal 20
  cloudType := .strVal "SECURE"
  ports := .null
  volumeMountPath := .strVal "/workspace"
  dockerArgs := .null
  env := .null
  minVcpuCount := .null
  minMemoryInGb := .null
  networkVolumeId := .null
  templateId := .null
  dataCenterId := .null
  supportPublicIp := .boolVal true
  startSsh := .boolVal true
  machineId := .strVal "m1"
  podHostId := .strVal "h1"

/-- A fetched pod whose `cloudType` is present and non-empty
(`"COMMUNITY"`). -/
def remoteCommunity : Pod where
  id := "p1"
  name := "x"
  imageName := "img"
  gpuTypeId := ""
  gpuCount := 1
  volumeInGb := 20
  containerDiskInGb := 20
  desiredStatus := "RUNNING"
  cloudType := "COMMUNITY"
  ports := ""
  volumeMountPath := ""
  dockerArgs := ""
  env := []
  machineId := ""
  machine := none
  runtime := none

/-- C4 counterexample: the fetched pod carries the present, non-empty remote
value `"COMMUNITY"`, so the claimed three-tier precedence would yield
`"COMMUNITY"` — but Read keeps the prior `"SECURE"`: the remote value is
never applied. -/
theorem read_cloudType_ignores_remote :
    remoteCommunity.cloudType = "COMMUNITY" ∧
    cloudTypeThreeTier remoteCommunity.cloudType priorSecure.cloudType "ALL" = "COMMUNITY" ∧
    (readReconcile priorSecure remoteCommunity).cloudType = .strVal "SECURE" ∧
    (readReconcile priorSecure remoteCommunity).cloudType ≠
      .strVal (cloudTypeThreeTier remoteCommunity.cloudType priorSecure.cloudType "ALL") := by
  refine ⟨rfl, rfl, rfl, ?_⟩
  decide

/-- C4 amended: Read ignores the remote `cloud_type` entirely and applies a
two-tier precedence — prior local value when set and not unknown, else the
default `"ALL"`.  In particular a prior `"SECURE"` is retained whatever the
remote object holds, and an absent prior adopts the default. -/
theorem read_cloudType_two_tier :
    ∀ (d : PodResourceModel) (pod : Pod),
      (readReconcile d pod).cloudType = cloudTypeTwoTier d.cloudType "ALL" ∧
      (readReconcile { d with cloudType := .strVal "SECURE" } pod).cloudType =
        .strVal "SECURE" ∧
      (readReconcile { d with cloudType := .null } pod).cloudType = .strVal "ALL" := by
  intro d pod
  refine ⟨?_, rfl, rfl⟩
  show (if d.cloudType = .null ∨ d.cloudType = .unknown then .strVal "ALL" else d.cloudType) = _
  cases d.cloudType <;> simp [cloudTypeTwoTier]

/-! ## Theorems about not-found classification in Read and Delete -/

theorem readNotFoundCond (e : String) :
    (goContains e "not found" || goContains e "Pod not found") = goContains e "not found" := by
  cases h : goContains e "not found"
  · cases h2 : goContains e "Pod not found"
    · simp
    · have := contains_podNotFound_contains_notFound e h2
      rw [goContains] at h
      rw [this] at h
      cases h
  · simp [h]

/-- C5: a fetch or terminate error whose message contains `"not found"`
makes Read remove the resource from state and Delete succeed, with no
diagnostic; any other error message makes both surface a diagnostic. -/
theorem read_delete_notFound_downgrade :
    ∀ (d : PodResourceModel) (e : String),
      (podRead d (.error e) = .removedFromState ↔ goContains e "not found" = true) ∧
      (podRead d (.error e) = .diag ("Unable to read pod: " ++ e) ↔
        goContains e "not found" = false) ∧
      (podDelete (some e) = none ↔ goContains e "not found" = true) ∧
      (podDelete (some e) = some ("Unable to terminate pod: " ++ e) ↔
        goContains e "not found" = false) := by
  intro d e
  have hcond := readNotFoundCond e
  cases h : goContains e "not found" <;>
    simp_all [podRead, podDelete]

/-! ## Theorems about `CreatePod` input building -/

theorem filter_ite_nil {α : Type} (f : α → Bool) (c : Prop) [Decidable c] (l : List α) :
    (if c then l else []).filter f = if c then l.filter f else [] := by
  split <;> rfl

/-- The entries of the create input map carrying a given key. -/
def inputMapEntries (input : PodInput) (key : String) : List (String × GqlVal) :=
  (buildCreateInputMap input).filter (fun kv => kv.1 == key)

/-- No entry for a boolean field that is `false`, nor for a numeric hint
that is not positive, is ever inserted into the create input map. -/
theorem buildCreateInputMap_omission (input : PodInput) :
    (input.supportPublicIp = false → inputMapEntries input "supportPublicIp" = []) ∧
    (input.startSsh = false → inputMapEntries input "startSsh" = []) ∧
    (input.minVcpuCount ≤ 0 → inputMapEntries input "minVcpuCount" = []) ∧
    (input.minMemoryInGb ≤ 0 → inputMapEntries input "minMemoryInGb" = []) := by
  refine ⟨fun h => ?_, fun h => ?_, fun h => ?_, fun h => ?_⟩
  · cases hg : input.gpuTypeIds <;>
      simp [inputMapEntries, buildCreateInputMap, hg, List.filter_append, filter_ite_nil, h]
  · cases hg : input.gpuTypeIds <;>
      simp [inputMapEntries, buildCreateInputMap, hg, List.filter_append, filter_ite_nil, h]
  · have hn : ¬(input.minVcpuCount > 0) := by omega
    cases hg : input.gpuTypeIds <;>
      simp [inputMapEntries, buildCreateInputMap, hg, List.filter_append, filter_ite_nil, hn]
  · have hn : ¬(input.minMemoryInGb > 0) := by omega
    cases hg : input.gpuTypeIds <;>
      simp [inputMapEntries, buildCreateInputMap, hg, List.filter_append, filter_ite_nil, hn]

/-- A planned state whose four false/zero-omitted optionals are explicitly
configured as `false` resp. `0`. -/
def withExplicitFalseZero (d : PodResourceModel) : PodResourceModel :=
  { d with supportPublicIp := .boolVal false,
           startSsh := .boolVal false,
           minVcpuCount := .intVal 0,
           minMemoryInGb := .intVal 0 }

/-- The same planned state with those four optionals never supplied. -/
def withUnsetOptionals (d : PodResourceModel) : PodResourceModel :=
  { d with supportPublicIp := .null,
           startSsh := .null,
           minVcpuCount := .null,
           minMemoryInGb := .null }

/-- C10: explicitly configuring `support_public_ip = false`,
`start_ssh = false`, `min_vcpu_count = 0`, `min_memory_in_gb = 0` produces
the same create request as leaving them unset, and none of the four fields
occurs in the transmitted input map. -/
theorem createPod_omits_false_and_zero_optionals :
    ∀ d : PodResourceModel,
      createPodRequest (buildPodInput (withExplicitFalseZero d)) =
        createPodRequest (buildPodInput (withUnsetOptionals d)) ∧
      inputMapEntries (buildPodInput (withExplicitFalseZero d)) "supportPublicIp" = [] ∧
      inputMapEntries (buildPodInput (withExplicitFalseZero d)) "startSsh" = [] ∧
      inputMapEntries (buildPodInput (withExplicitFalseZero d)) "minVcpuCount" = [] ∧
      inputMapEntries (buildPodInput (withExplicitFalseZero d)) "minMemoryInGb" = [] := by
  intro d
  obtain ⟨o1, o2, o3, o4⟩ :=
    buildCreateInputMap_omission (buildPodInput (withExplicitFalseZero d))
  exact ⟨rfl, o1 rfl, o2 rfl,
    o3 (by norm_num [buildPodInput, withExplicitFalseZero, TfInt.valueInt]),
    o4 (by norm_num [buildPodInput, withExplicitFalseZero, TfInt.valueInt])⟩

end RunPod
